import Mathlib

/-!
Verification development for the jira-qa-wizard repository
(`src/jira_ticket_fetcher.py`).

Python strings are embedded as `List Char` (`PyStr`): Python `len` is
`List.length` (both count unicode code points), `+` on strings is `++`,
and the Python string methods used by the program (`strip`, `lower`,
`replace`, `startswith`, `endswith`, the `in` operator, slicing and
`split('\n')`) are embedded as executable recursive functions below.
-/

namespace JiraQA

abbrev PyStr := List Char

/-- Coerce a Lean string literal to the `List Char` embedding. -/
def chars (s : String) : PyStr := s.data

/-- Python `s.startswith(p)` (also the prefix test used by `in`). -/
def pyPrefix : PyStr → PyStr → Bool
  | [], _ => true
  | _ :: _, [] => false
  | a :: as, b :: bs => if a = b then pyPrefix as bs else false

/-- Python `needle in hay` (substring containment). -/
def pyContains (needle : PyStr) : PyStr → Bool
  | [] => needle.isEmpty
  | c :: rest => pyPrefix needle (c :: rest) || pyContains needle rest

/-- Python `s.endswith(p)`. -/
def pySuffix (p s : PyStr) : Bool := pyPrefix p.reverse s.reverse

/-- ASCII lowercasing of one character, as Python `str.lower` does on
the ASCII inputs this program handles. -/
def charLower (c : Char) : Char :=
  if 65 ≤ c.toNat ∧ c.toNat ≤ 90 then Char.ofNat (c.toNat + 32) else c

/-- Python `s.lower()`. -/
def pyLower (s : PyStr) : PyStr := s.map charLower

/-- Python whitespace characters recognised by `str.strip()`. -/
def isPySpace (c : Char) : Bool :=
  c = ' ' || c = '\t' || c = '\n' || c = '\r' || c = '\x0b' || c = '\x0c'

/-- Python `s.strip()`. -/
def pyStrip (s : PyStr) : PyStr :=
  ((s.dropWhile isPySpace).reverse.dropWhile isPySpace).reverse

/-- Python `s.split('\n')`. -/
def pySplitNl : PyStr → List PyStr
  | [] => [[]]
  | c :: rest =>
    let r := pySplitNl rest
    if c = '\n' then [] :: r
    else
      match r with
      | [] => [[c]]
      | h :: t => (c :: h) :: t

/-- Worker for `pyReplace`, structurally recursive on a fuel that
starts at the string length; every step consumes at least one
character, so the fuel never runs out. -/
def pyReplaceFuel : Nat → PyStr → PyStr → PyStr → PyStr
  | _, [], _, _ => []
  | 0, s, _, _ => s
  | fuel + 1, c :: rest, pat, rep =>
    if pat ≠ [] ∧ pyPrefix pat (c :: rest) then
      rep ++ pyReplaceFuel fuel (rest.drop (pat.length - 1)) pat rep
    else
      c :: pyReplaceFuel fuel rest pat rep

/-- Python `s.replace(pat, rep)` for a non-empty pattern (the program
only ever replaces the non-empty pattern `"PDW-"`). -/
def pyReplace (s pat rep : PyStr) : PyStr := pyReplaceFuel s.length s pat rep

/-- Python `s[:n]` where `n` may be negative (`s[:-k]` drops the last
`k` characters, clamping at the empty string). -/
def pySliceTo (s : PyStr) (n : Int) : PyStr :=
  if 0 ≤ n then s.take n.toNat else s.take (s.length - (-n).toNat)

/-- Decimal rendering of a natural number, as Python string formatting
of a non-negative int. -/
def natChars (n : Nat) : PyStr := (toString n).data

/-!
## C1 — `format_code_changes_for_context` (src/jira_ticket_fetcher.py:1450-1499)

One entry of the `files` list of the `code_changes` dict built by
`fetch_pr_code_changes`, and the dict itself.  `hasErrorKey` models
`'error' in code_changes`.
-/

structure FileInfo where
  filename : PyStr
  status : PyStr
  additions : Nat
  deletions : Nat
  changes : Nat
  patch : PyStr
deriving DecidableEq

structure CodeChanges where
  hasErrorKey : Bool
  total_files : Nat
  sum_additions : Nat
  sum_deletions : Nat
  sum_changes : Nat
  files : List FileInfo
deriving DecidableEq

/-- The fixed summary header the function emits first
(`context = f"""..."""`, lines 1455-1463). -/
def codeChangesHeader (cc : CodeChanges) : PyStr :=
  chars "\nCODE CHANGES SUMMARY:\n- Files changed: " ++ natChars cc.total_files ++
  chars "\n- Additions: +" ++ natChars cc.sum_additions ++
  chars " lines\n- Deletions: -" ++ natChars cc.sum_deletions ++
  chars " lines\n- Total changes: " ++ natChars cc.sum_changes ++
  chars " lines\n\nDETAILED FILE CHANGES:\n"

/-- The per-file header (`file_header = f"""..."""`, lines 1468-1472). -/
def fileHeader (f : FileInfo) : PyStr :=
  chars "\n📁 " ++ f.filename ++ chars " (" ++ f.status ++ chars ")\n   +" ++
  natChars f.additions ++ chars " -" ++ natChars f.deletions ++ chars " changes\n\n"

/-- Marker appended when remaining files are dropped (line 1476). -/
def filesTruncMarker : PyStr := chars "\n... (truncated - remaining files not shown)"

/-- Marker appended when a patch is cut (line 1488). -/
def patchTruncMarker : PyStr := chars "\n... (truncated)"

/-- Marker appended when a patch section does not fit at all (line 1496). -/
def diffTooLargeMarker : PyStr := chars "```\n(Code diff too large to include)\n```\n"

/-- The `for file_info in code_changes['files']` loop of
`format_code_changes_for_context` (lines 1467-1497), carrying the
`current_length` counter and the accumulated `context` string. -/
def formatFilesLoop (maxLength : Nat) : List FileInfo → Nat → PyStr → PyStr
  | [], _, context => context
  | f :: rest, currentLength, context =>
    let fh := fileHeader f
    if maxLength < currentLength + fh.length then
      context ++ filesTruncMarker
    else
      let context1 := context ++ fh
      let currentLength1 := currentLength + fh.length
      if f.patch = [] then
        formatFilesLoop maxLength rest currentLength1 context1
      else
        let maxPatchLength : Int := min 2000 ((maxLength : Int) - (currentLength1 : Int) - 100)
        let patch :=
          if maxPatchLength < (f.patch.length : Int) then
            pySliceTo f.patch maxPatchLength ++ patchTruncMarker
          else f.patch
        let patchSection := chars "```diff\n" ++ patch ++ chars "\n```\n"
        if currentLength1 + patchSection.length ≤ maxLength then
          formatFilesLoop maxLength rest (currentLength1 + patchSection.length)
            (context1 ++ patchSection)
        else
          context1 ++ diffTooLargeMarker

/-- `format_code_changes_for_context(code_changes, max_length=8000)`
(lines 1450-1499); the `max_length` default is 8000 at every call site. -/
def format_code_changes_for_context (cc : CodeChanges) (maxLength : Nat) : PyStr :=
  if cc.hasErrorKey || cc.files.isEmpty then []
  else
    let context := codeChangesHeader cc
    formatFilesLoop maxLength cc.files context.length context

theorem filesTruncMarker_length : filesTruncMarker.length = 44 := by decide

theorem diffTooLargeMarker_length : diffTooLargeMarker.length = 41 := by decide

/-- Invariant of the file loop: starting from a synced counter within
budget, the result exceeds the budget by at most 44 characters (the
length of the files-dropped marker), and any overflowing result ends
with one of the two truncation markers. -/
theorem formatFilesLoop_bound (maxLength : Nat) (files : List FileInfo) :
    ∀ (cur : Nat) (ctx : PyStr), cur = ctx.length → cur ≤ maxLength →
    (formatFilesLoop maxLength files cur ctx).length ≤ maxLength + 44 ∧
    (maxLength < (formatFilesLoop maxLength files cur ctx).length →
      (∃ p, formatFilesLoop maxLength files cur ctx = p ++ filesTruncMarker) ∨
      (∃ p, formatFilesLoop maxLength files cur ctx = p ++ diffTooLargeMarker)) := by
  induction files with
  | nil =>
    intro cur ctx hsync hle
    simp only [formatFilesLoop]
    exact ⟨by omega, fun h => absurd h (by omega)⟩
  | cons f rest ih =>
    intro cur ctx hsync hle
    simp only [formatFilesLoop]
    split
    · constructor
      · rw [List.length_append, filesTruncMarker_length]
        omega
      · intro _
        exact Or.inl ⟨ctx, rfl⟩
    · rename_i h1
      split
      · apply ih
        · rw [List.length_append]
          omega
        · omega
      · split
        · split
          · rename_i hfits
            apply ih
            · simp only [List.length_append]
              omega
            · simp only [List.length_append] at hfits ⊢
              omega
          · constructor
            · simp only [List.length_append, diffTooLargeMarker_length]
              omega
            · intro _
              exact Or.inr ⟨ctx ++ fileHeader f, rfl⟩
        · split
          · rename_i hfits
            apply ih
            · simp only [List.length_append]
              omega
            · simp only [List.length_append] at hfits ⊢
              omega
          · constructor
            · simp only [List.length_append, diffTooLargeMarker_length]
              omega
            · intro _
              exact Or.inr ⟨ctx ++ fileHeader f, rfl⟩

/-- Two files with empty patches whose headers exactly exhaust a
budget of 169 characters: the second file forces the truncation
marker, pushing the output past the budget. -/
def truncDemoFileA : FileInfo :=
  { filename := chars "a", status := chars "modified",
    additions := 0, deletions := 0, changes := 0, patch := chars "" }

def truncDemoFileB : FileInfo :=
  { filename := chars "b", status := chars "modified",
    additions := 0, deletions := 0, changes := 0, patch := chars "" }

def truncDemoChanges : CodeChanges :=
  { hasErrorKey := false, total_files := 2, sum_additions := 0,
    sum_deletions := 0, sum_changes := 0,
    files := [truncDemoFileA, truncDemoFileB] }

set_option maxRecDepth 8000 in
/-- C1 counterexample: with the budget configured to 169 characters
(header 135 + one 34-character file header), the returned string has
213 characters — the claim that the output never exceeds the budget is
false: appending the truncation marker itself overruns the budget. -/
theorem C1_budget_counterexample :
    169 < (format_code_changes_for_context truncDemoChanges 169).length := by
  decide

/-- C1 (amended): provided the fixed summary header fits in the
budget, `format_code_changes_for_context` exceeds the budget by at
most 44 characters (the length of the truncation marker), and whenever
the output does exceed the budget it ends with an explicit truncation
marker (the files-dropped marker or the diff-too-large marker) rather
than silently cut text. -/
theorem C1_code_change_budget (cc : CodeChanges) (maxLength : Nat)
    (h : (codeChangesHeader cc).length ≤ maxLength) :
    (format_code_changes_for_context cc maxLength).length ≤ maxLength + 44 ∧
    (maxLength < (format_code_changes_for_context cc maxLength).length →
      (∃ p, format_code_changes_for_context cc maxLength = p ++ filesTruncMarker) ∨
      (∃ p, format_code_changes_for_context cc maxLength = p ++ diffTooLargeMarker)) := by
  unfold format_code_changes_for_context
  split
  · exact ⟨by simp, fun hh => absurd hh (by simp)⟩
  · exact formatFilesLoop_bound maxLength cc.files _ _ rfl h

set_option maxRecDepth 8000 in
/-- Witness for `C1_code_change_budget` at the default budget 8000. -/
theorem C1_code_change_budget_witness :
    (codeChangesHeader truncDemoChanges).length ≤ 8000 ∧
    ((format_code_changes_for_context truncDemoChanges 8000).length ≤ 8000 + 44 ∧
     (8000 < (format_code_changes_for_context truncDemoChanges 8000).length →
       (∃ p, format_code_changes_for_context truncDemoChanges 8000 = p ++ filesTruncMarker) ∨
       (∃ p, format_code_changes_for_context truncDemoChanges 8000 = p ++ diffTooLargeMarker))) :=
  ⟨by decide, C1_code_change_budget truncDemoChanges 8000 (by decide)⟩

/-!
## C2 / C7 — PR selection in `fetch_prs_from_github`
(src/jira_ticket_fetcher.py:1253-1344) and `_get_detailed_pr_info`
(lines 1346-1372)
-/

/-- One search result from the GitHub issues search, restricted to the
fields the selection loop reads.  `detailMergedAt` records what
`_get_detailed_pr_info(pr['url'])` would return for this PR: `none`
models the empty dict of a failed lookup; `some m` a successful lookup
whose `merged_at` value is `m` (`none` = JSON null / absent key,
`some ts` = a timestamp string). -/
structure PRItem where
  number : Nat
  state : PyStr
  detailMergedAt : Option (Option PyStr)
deriving DecidableEq

/-- The skip test of the selection loop (lines 1320-1326): a PR is
skipped as declined when its search `state` is `"closed"` and the
detailed record is truthy (non-empty dict) with a falsy `merged_at`. -/
def isDeclinedSkip (pr : PRItem) : Bool :=
  if pr.state = chars "closed" then
    match pr.detailMergedAt with
    | none => false
    | some none => true
    | some (some ts) => ts.isEmpty
  else false

/-- Stable insertion before later equal-numbered entries, building the
ascending-number order of Python `sorted` with key `number`. -/
def insertByNumber (pr : PRItem) : List PRItem → List PRItem
  | [] => [pr]
  | q :: rest =>
    if pr.number ≤ q.number then pr :: q :: rest else q :: insertByNumber pr rest

/-- Python `sorted(prs, key=lambda x: x.get('number', 0))` (line 1317). -/
def sortByNumber : List PRItem → List PRItem
  | [] => []
  | pr :: rest => insertByNumber pr (sortByNumber rest)

/-- The per-repository selection loop (lines 1317-1331): walk the PRs
in ascending number order, `continue` past declined ones, select the
first remaining PR and `break`. -/
def selectLowestNonDeclined (prs : List PRItem) : Option PRItem :=
  (sortByNumber prs).find? (fun pr => !(isDeclinedSkip pr))

/-- The outer grouping loop over `repos_prs.items()` (lines 1314-1331):
at most one selected PR per repository, in repository order. -/
def selectPRsPerRepo (repos : List (PyStr × List PRItem)) : List (PyStr × PRItem) :=
  repos.filterMap (fun rp => (selectLowestNonDeclined rp.2).map (fun p => (rp.1, p)))

theorem mem_insertByNumber (x a : PRItem) :
    ∀ l, a ∈ insertByNumber x l ↔ a = x ∨ a ∈ l := by
  intro l
  induction l with
  | nil => simp [insertByNumber]
  | cons q rest ih =>
    simp only [insertByNumber]
    split
    · simp [List.mem_cons]
    · simp only [List.mem_cons, ih]
      tauto

theorem pairwise_insertByNumber (x : PRItem) :
    ∀ l, List.Pairwise (fun a b => a.number ≤ b.number) l →
    List.Pairwise (fun a b => a.number ≤ b.number) (insertByNumber x l) := by
  intro l
  induction l with
  | nil => intro _; simp [insertByNumber]
  | cons q rest ih =>
    intro hpw
    rw [List.pairwise_cons] at hpw
    obtain ⟨hq, hrest⟩ := hpw
    simp only [insertByNumber]
    split
    · rename_i hle
      rw [List.pairwise_cons]
      refine ⟨?_, ?_⟩
      · intro b hb
        rcases List.mem_cons.mp hb with rfl | hb'
        · exact hle
        · exact le_trans hle (hq b hb')
      · rw [List.pairwise_cons]
        exact ⟨hq, hrest⟩
    · rename_i hgt
      rw [List.pairwise_cons]
      refine ⟨?_, ih hrest⟩
      · intro b hb
        rcases (mem_insertByNumber x b rest).mp hb with rfl | hb'
        · omega
        · exact hq b hb'

theorem mem_sortByNumber (a : PRItem) :
    ∀ l, a ∈ sortByNumber l ↔ a ∈ l := by
  intro l
  induction l with
  | nil => simp [sortByNumber]
  | cons q rest ih =>
    simp [sortByNumber, mem_insertByNumber, ih]

theorem pairwise_sortByNumber :
    ∀ l, List.Pairwise (fun a b => a.number ≤ b.number) (sortByNumber l) := by
  intro l
  induction l with
  | nil => simp [sortByNumber]
  | cons q rest ih => exact pairwise_insertByNumber q _ ih

theorem find?_min_of_pairwise (ok : PRItem → Bool) :
    ∀ (l : List PRItem), List.Pairwise (fun a b => a.number ≤ b.number) l →
    ∀ p, l.find? ok = some p → ∀ q ∈ l, ok q = true → p.number ≤ q.number := by
  intro l
  induction l with
  | nil =>
    intro _ p hfind
    simp [List.find?] at hfind
  | cons a t ih =>
    intro hpw p hfind q hq hok
    rw [List.pairwise_cons] at hpw
    cases hoka : ok a with
    | true =>
      rw [List.find?_cons_of_pos t hoka] at hfind
      obtain rfl : a = p := by injection hfind
      rcases List.mem_cons.mp hq with rfl | hq'
      · exact le_refl _
      · exact hpw.1 q hq'
    | false =>
      rw [List.find?_cons_of_neg t (by simp [hoka])] at hfind
      rcases List.mem_cons.mp hq with rfl | hq'
      · rw [hok] at hoka
        exact absurd hoka (by simp)
      · exact ih hpw.2 p hfind q hq' hok

/-- An open PR #12 as returned by the GitHub search API. -/
def openPR12 : PRItem :=
  { number := 12, state := chars "open", detailMergedAt := none }

/-- A merged PR #7: the search API reports `state = "closed"` for
merged PRs, and the detailed record carries a merge timestamp. -/
def mergedPR7 : PRItem :=
  { number := 7, state := chars "closed",
    detailMergedAt := some (some (chars "2024-01-01T00:00:00Z")) }

/-- A declined PR #9: closed, detailed record fetched, `merged_at`
null. -/
def declinedPR9 : PRItem :=
  { number := 9, state := chars "closed", detailMergedAt := some none }

/-- C2: for every repository's PR set, the selection step picks a
non-declined PR of minimal number among the non-declined ones (a
declined PR is one whose state is closed and whose detailed record has
no merge timestamp); in particular a repository holding an open PR #12
and a merged PR #7 yields PR #7. -/
theorem C2_lowest_nondeclined_selected :
    (∀ (prs : List PRItem) (p : PRItem),
        selectLowestNonDeclined prs = some p →
        isDeclinedSkip p = false ∧ p ∈ prs ∧
        ∀ q ∈ prs, isDeclinedSkip q = false → p.number ≤ q.number) ∧
    selectLowestNonDeclined [openPR12, mergedPR7] = some mergedPR7 := by
  constructor
  · intro prs p hsel
    unfold selectLowestNonDeclined at hsel
    have hok := List.find?_some hsel
    have hmem : p ∈ sortByNumber prs := List.mem_of_find?_eq_some hsel
    refine ⟨by simpa using hok, (mem_sortByNumber p prs).mp hmem, ?_⟩
    intro q hq hqok
    exact find?_min_of_pairwise _ _ (pairwise_sortByNumber prs) p hsel q
      ((mem_sortByNumber q prs).mpr hq) (by simp [hqok])
  · decide

/-- Witness for `C2_lowest_nondeclined_selected` on the open-#12 /
merged-#7 repository. -/
theorem C2_lowest_nondeclined_selected_witness :
    isDeclinedSkip mergedPR7 = false ∧ mergedPR7 ∈ [openPR12, mergedPR7] ∧
    ∀ q ∈ [openPR12, mergedPR7], isDeclinedSkip q = false →
      mergedPR7.number ≤ q.number :=
  C2_lowest_nondeclined_selected.1 [openPR12, mergedPR7] mergedPR7 (by decide)

theorem insertByNumber_append_last (x d : PRItem) (hxd : x.number ≤ d.number) :
    ∀ l, insertByNumber x (l ++ [d]) = insertByNumber x l ++ [d] := by
  intro l
  induction l with
  | nil => simp [insertByNumber, hxd]
  | cons q rest ih =>
    simp only [List.cons_append, insertByNumber]
    split
    · simp
    · simp [ih]

theorem selectPRsPerRepo_keys_sublist :
    ∀ repos : List (PyStr × List PRItem),
    ((selectPRsPerRepo repos).map Prod.fst).Sublist (repos.map Prod.fst) := by
  intro repos
  induction repos with
  | nil => simp [selectPRsPerRepo]
  | cons rp rest ih =>
    cases h : selectLowestNonDeclined rp.2 with
    | none =>
      simpa [selectPRsPerRepo, List.filterMap_cons, h] using ih.cons rp.1
    | some p =>
      simpa [selectPRsPerRepo, List.filterMap_cons, h] using ih.cons₂ rp.1

theorem sortByNumber_append_last (d : PRItem) :
    ∀ l, (∀ q ∈ l, q.number ≤ d.number) →
    sortByNumber (l ++ [d]) = sortByNumber l ++ [d] := by
  intro l
  induction l with
  | nil => simp [sortByNumber, insertByNumber]
  | cons p rest ih =>
    intro hb
    have h1 : (p :: rest) ++ [d] = p :: (rest ++ [d]) := rfl
    rw [h1, sortByNumber, sortByNumber,
      ih (fun q hq => hb q (List.mem_cons.mpr (Or.inr hq)))]
    exact insertByNumber_append_last p d (hb p (List.mem_cons.mpr (Or.inl rfl))) _

/-- C7: (i) a repository whose only PR is closed without a merge
timestamp gets no selection; (ii) appending a later, higher-numbered,
declined entry never overrides an already-made selection; (iii) the
per-repository grouping retains at most one PR per repository (the
selected keys stay duplicate-free). -/
theorem C7_declined_pr_invariants :
    (∀ pr : PRItem, pr.state = chars "closed" → pr.detailMergedAt = some none →
        selectLowestNonDeclined [pr] = none) ∧
    (∀ (prs : List PRItem) (p d : PRItem),
        selectLowestNonDeclined prs = some p → isDeclinedSkip d = true →
        (∀ q ∈ prs, q.number ≤ d.number) →
        selectLowestNonDeclined (prs ++ [d]) = some p) ∧
    (∀ repos : List (PyStr × List PRItem),
        (repos.map Prod.fst).Nodup → ((selectPRsPerRepo repos).map Prod.fst).Nodup) := by
  refine ⟨?_, ?_, ?_⟩
  · intro pr h1 h2
    simp [selectLowestNonDeclined, sortByNumber, insertByNumber, List.find?,
      isDeclinedSkip, h1, h2]
  · intro prs p d hsel hd hnum
    unfold selectLowestNonDeclined at hsel ⊢
    rw [sortByNumber_append_last d prs hnum, List.find?_append, hsel]
    rfl
  · intro repos hnd
    exact List.Nodup.sublist (selectPRsPerRepo_keys_sublist repos) hnd

/-- Witness for `C7_declined_pr_invariants`: a lone declined PR yields
no selection, and a higher-numbered declined PR does not override a
selected merged PR. -/
theorem C7_declined_pr_invariants_witness :
    selectLowestNonDeclined [declinedPR9] = none ∧
    selectLowestNonDeclined ([mergedPR7] ++ [declinedPR9]) = some mergedPR7 ∧
    ((selectPRsPerRepo [(chars "org/repo", [declinedPR9])]).map Prod.fst).Nodup :=
  ⟨C7_declined_pr_invariants.1 declinedPR9 rfl rfl,
   C7_declined_pr_invariants.2.1 [mergedPR7] mergedPR7 declinedPR9
     (by decide) (by decide) (by decide),
   C7_declined_pr_invariants.2.2 [(chars "org/repo", [declinedPR9])] (by decide)⟩

/-!
## C3 — wiki page discovery and the assembled Confluence context

Direct-link extraction fills `confluence_docs`
(`fetch_all_mentioned_documentation`, lines 1599-1639, deduplicated
internally by `processed_pages`); the keyword/CQL search pass fills
`confluence_mentions` (`search_confluence_for_ticket_mentions`, lines
1789-1933, whose storage-format merge at lines 1918-1922 deduplicates
within the pass).  `process_tickets_with_test_cases` then assembles
both into `confluence_context` (lines 938-985).
-/

/-- A fetched Confluence document as stored in `confluence_docs`: the
fields read by the context builder (`body` is falsy when empty). -/
structure DocInfo where
  title : PyStr
  url : PyStr
  body : PyStr
deriving DecidableEq

/-- One mention record as built in
`search_confluence_for_ticket_mentions`; the fields read by the merge
step and the context builder (`id` and `body` falsy when empty). -/
structure MentionInfo where
  id : PyStr
  title : PyStr
  space_name : PyStr
  url : PyStr
  body : PyStr
deriving DecidableEq

/-- Python truncation `s[:n] + "..." if len(s) > n else s`. -/
def pyExcerpt (s : PyStr) (n : Nat) : PyStr :=
  if n < s.length then s.take n ++ chars "..." else s

/-- Python `x in l` for a list of strings. -/
def memStr (x : PyStr) : List PyStr → Bool
  | [] => false
  | y :: rest => if y = x then true else memStr x rest

/-- The merge of storage-format analysis results into the CQL search
results (lines 1918-1922): a storage mention is appended only when its
page id is not among the truthy ids already present in
`ticket_mentions`. -/
def mergeStorageMentions (ticketMentions storageMentions : List MentionInfo) :
    List MentionInfo :=
  let existingPageIds := (ticketMentions.filter (fun m => !m.id.isEmpty)).map
    (fun m => m.id)
  ticketMentions ++ storageMentions.filter (fun m => !(memStr m.id existingPageIds))

/-- The PROJECT DOCUMENTATION CONTEXT section built from
`confluence_docs` (lines 940-948). -/
def buildDocsContext (confluenceDocs : List (PyStr × DocInfo)) : PyStr :=
  if confluenceDocs.isEmpty then []
  else
    confluenceDocs.foldl (fun acc pd =>
      let acc1 := acc ++ chars "\n\n--- " ++ pd.2.title ++ chars " ---" ++
        chars "\nURL: " ++ pd.2.url
      if pd.2.body.isEmpty then acc1
      else acc1 ++ chars "\nContent:\n" ++ pyExcerpt pd.2.body 2000)
      (chars "\n\nPROJECT DOCUMENTATION CONTEXT:")

/-- Dict lookup `confluence_mentions[key]` guarded by
`key in confluence_mentions`. -/
def lookupMentions (confluenceMentions : List (PyStr × List MentionInfo))
    (k : PyStr) : Option (List MentionInfo) :=
  (confluenceMentions.find? (fun p => p.1 = k)).map Prod.snd

/-- The CONFLUENCE MENTIONS CONTEXT section (lines 950-985): for each
relevant key present in `confluence_mentions`, a key banner followed
by each mention's title, space, URL and capped body excerpt. -/
def buildMentionsContext (confluenceMentions : List (PyStr × List MentionInfo))
    (relevantKeys : List PyStr) : PyStr :=
  if confluenceMentions.isEmpty then []
  else
    let foundMentions := relevantKeys.filterMap
      (fun k => (lookupMentions confluenceMentions k).map (fun ms => (k, ms)))
    if foundMentions.isEmpty then []
    else
      foundMentions.foldl (fun acc km =>
        km.2.foldl (fun acc2 m =>
          let acc3 := acc2 ++ chars "\n• " ++ m.title ++ chars " (" ++
            m.space_name ++ chars ")" ++ chars "\n  URL: " ++ m.url
          if m.body.isEmpty then acc3
          else acc3 ++ chars "\n  Content: " ++ pyExcerpt m.body 800)
          (acc ++ chars "\n\n--- Pages mentioning " ++ km.1 ++ chars " ---"))
        (chars "\n\nCONFLUENCE MENTIONS CONTEXT:")

/-- The Confluence part of the generation context
(`confluence_context` in `process_tickets_with_test_cases`): the
documentation section followed by the mentions section. -/
def buildConfluenceContext (confluenceDocs : List (PyStr × DocInfo))
    (confluenceMentions : List (PyStr × List MentionInfo))
    (relevantKeys : List PyStr) : PyStr :=
  buildDocsContext confluenceDocs ++
    buildMentionsContext confluenceMentions relevantKeys

/-- Number of character positions at which `needle` occurs in `hay`
(formalising "contains the page content exactly once"). -/
def countOccs (needle : PyStr) : PyStr → Nat
  | [] => if needle.isEmpty then 1 else 0
  | c :: rest => (if pyPrefix needle (c :: rest) then 1 else 0) + countOccs needle rest

/-- A wiki page (id 777) discovered via a direct link in ticket text. -/
def dupPageDoc : DocInfo :=
  { title := chars "Plan", url := chars "u1", body := chars "WIKIBODY77" }

/-- The same wiki page (id 777) rediscovered by the keyword search. -/
def dupPageMention : MentionInfo :=
  { id := chars "777", title := chars "Plan", space_name := chars "SP",
    url := chars "u1", body := chars "WIKIBODY77" }

set_option maxRecDepth 8000 in
/-- C3 counterexample: page id 777, discovered both via direct-link
extraction (`confluence_docs`) and via the keyword search
(`confluence_mentions` for ticket PDW-1), has its body text included
twice in the assembled context — the two discovery paths are not
deduplicated against each other. -/
theorem C3_dedup_counterexample :
    countOccs (chars "WIKIBODY77")
      (buildConfluenceContext [(chars "777", dupPageDoc)]
        [(chars "PDW-1", [dupPageMention])] [chars "PDW-1"]) = 2 := by
  decide

theorem memStr_eq_true (x : PyStr) : ∀ l : List PyStr, memStr x l = true ↔ x ∈ l := by
  intro l
  induction l with
  | nil => simp [memStr]
  | cons y rest ih =>
    simp only [memStr, List.mem_cons]
    split
    · rename_i h
      simp [h.symm]
    · rename_i h
      rw [ih]
      constructor
      · exact Or.inr
      · rintro (rfl | hx)
        · exact absurd rfl h
        · exact hx

theorem filter_storage_no_existing (pid : PyStr) (ex : List PyStr)
    (hex : memStr pid ex = true) :
    ∀ sm : List MentionInfo,
    ((sm.filter (fun m => !(memStr m.id ex))).filter (fun m => m.id = pid)) = [] := by
  intro sm
  induction sm with
  | nil => simp
  | cons m rest ih =>
    by_cases hkeep : memStr m.id ex = true
    · simp [List.filter_cons, hkeep, ih]
    · have hne : ¬ (m.id = pid) := by
        intro he
        rw [he] at hkeep
        exact hkeep hex
      simp [List.filter_cons, hkeep, hne, ih]

/-- C3 (amended): within the search pass itself the storage-format
merge adds no second copy of a page id already returned by the CQL
queries: the number of mentions carrying a given (truthy) id already
present is unchanged by the merge. -/
theorem C3_search_pass_dedup (tm sm : List MentionInfo) (pid : PyStr)
    (hpid : pid.isEmpty = false) (hmem : pid ∈ tm.map (fun m => m.id)) :
    ((mergeStorageMentions tm sm).filter (fun m => m.id = pid)).length =
      (tm.filter (fun m => m.id = pid)).length := by
  have hex : memStr pid ((tm.filter (fun m => !m.id.isEmpty)).map (fun m => m.id)) = true := by
    rw [memStr_eq_true]
    obtain ⟨m, hm, hid⟩ := List.mem_map.mp hmem
    refine List.mem_map.mpr ⟨m, ?_, hid⟩
    refine List.mem_filter.mpr ⟨hm, ?_⟩
    rw [hid]
    simp [hpid]
  simp only [mergeStorageMentions, List.filter_append,
    filter_storage_no_existing pid _ hex sm, List.append_nil]

/-- Witness for `C3_search_pass_dedup`: merging a storage rediscovery
of page 777 into CQL results already containing it leaves exactly one
mention with that id. -/
theorem C3_search_pass_dedup_witness :
    ((mergeStorageMentions [dupPageMention] [dupPageMention]).filter
        (fun m => m.id = chars "777")).length =
      (([dupPageMention] : List MentionInfo).filter
        (fun m => m.id = chars "777")).length :=
  C3_search_pass_dedup [dupPageMention] [dupPageMention] (chars "777")
    (by decide) (by decide)

/-!
## C4 / C5 — ADF text extraction

The class body defines `_extract_adf_text` twice: at lines 227-257 and
again at lines 2103-2136.  In Python the second definition shadows the
first, so the method actually bound on the class is the one at line
2103; the shadowed first version is embedded as
`extract_adf_text_shadowed` because it is the one whose cleanup the
spec describes.  Both versions walk the node tree identically — the
text of a `"text"` node, then the `content` children in order, then a
newline after a `"paragraph"` node — the first collecting parts into a
list that is joined, the second concatenating the same parts
recursively; `adfParts` is that shared walk, and they differ only in
the final cleanup applied to the concatenation.
-/

mutual
/-- A JSON value inside an ADF tree as the extractor sees it: a dict
with an optional `type` string, optional `text` and optional `content`
array; a bare array; or a scalar that the walk ignores. -/
inductive ADF where
  | dict (ty : Option PyStr) (txt : Option PyStr) (content : Option ADFList)
  | arr (items : ADFList)
  | scalar
inductive ADFList where
  | nil
  | cons (head : ADF) (tail : ADFList)
end

mutual
/-- The emitted string parts of the tree walk, in order: the `text` of
a text node (default `""`), the parts of the `content` children, and a
`"\n"` after a paragraph node. -/
def adfParts : ADF → List PyStr
  | ADF.dict ty txt content =>
    (if ty = some (chars "text") then [txt.getD []] else []) ++
    (match content with
     | some cs => adfPartsList cs
     | none => []) ++
    (if ty = some (chars "paragraph") then [chars "\n"] else [])
  | ADF.arr items => adfPartsList items
  | ADF.scalar => []
def adfPartsList : ADFList → List PyStr
  | ADFList.nil => []
  | ADFList.cons a as => adfParts a ++ adfPartsList as
end

/-- `''.join(text_parts)`: the concatenation both versions produce. -/
def adfJoined (d : ADF) : PyStr := (adfParts d).flatten

/-- The effective `_extract_adf_text` (second definition, lines
2103-2136): the recursive concatenation followed by a final
`.strip()`. -/
def extract_adf_text (d : ADF) : PyStr := pyStrip (adfJoined d)

/-- The blank-line collapse of the shadowed first definition (line
255): keep the stripped non-blank lines, joined by single newlines. -/
def collapseBlankLines (s : PyStr) : PyStr :=
  List.intercalate (chars "\n") (((pySplitNl s).map pyStrip).filter (fun l => !l.isEmpty))

/-- The shadowed first `_extract_adf_text` (lines 227-257): join,
strip, collapse blank lines, and fall back to the sentinel when the
result is empty. -/
def extract_adf_text_shadowed (d : ADF) : PyStr :=
  let text := collapseBlankLines (pyStrip (adfJoined d))
  if text.isEmpty then chars "No content provided" else text

mutual
/-- Claim side of C4: the `"text"`-node fragments of a tree in
document order. -/
def adfFragments : ADF → List PyStr
  | ADF.dict ty txt content =>
    (if ty = some (chars "text") then [txt.getD []] else []) ++
    (match content with
     | some cs => adfFragmentsList cs
     | none => [])
  | ADF.arr items => adfFragmentsList items
  | ADF.scalar => []
def adfFragmentsList : ADFList → List PyStr
  | ADFList.nil => []
  | ADFList.cons a as => adfFragments a ++ adfFragmentsList as
end

mutual
/-- The fragments embed into the emitted parts as a sublist: no
fragment is dropped or reordered by the walk. -/
theorem adfFragments_sublist : ∀ d : ADF, (adfFragments d).Sublist (adfParts d)
  | ADF.dict ty txt content => by
    cases content with
    | none =>
      simp only [adfFragments, adfParts, List.append_nil]
      exact List.sublist_append_left _ _
    | some cs =>
      have ih := adfFragmentsList_sublist cs
      simp only [adfFragments, adfParts, List.append_assoc]
      exact List.Sublist.append (List.Sublist.refl _)
        (List.Sublist.trans ih (List.sublist_append_left _ _))
  | ADF.arr items => adfFragmentsList_sublist items
  | ADF.scalar => List.Sublist.refl []
theorem adfFragmentsList_sublist :
    ∀ ds : ADFList, (adfFragmentsList ds).Sublist (adfPartsList ds)
  | ADFList.nil => List.Sublist.refl []
  | ADFList.cons a as =>
    List.Sublist.append (adfFragments_sublist a) (adfFragmentsList_sublist as)
end

/-- A paragraph node holding one text node. -/
def paraText (s : String) : ADF :=
  ADF.dict (some (chars "paragraph")) none
    (some (ADFList.cons (ADF.dict (some (chars "text")) (some (chars s)) none) ADFList.nil))

/-- A paragraph node with an empty content array. -/
def paraEmpty : ADF :=
  ADF.dict (some (chars "paragraph")) none (some ADFList.nil)

/-- A document whose paragraphs are "a", an empty paragraph, and "b". -/
def demoDocAB : ADF :=
  ADF.dict (some (chars "doc")) none
    (some (ADFList.cons (paraText "a")
      (ADFList.cons paraEmpty (ADFList.cons (paraText "b") ADFList.nil))))

/-- C4: the walk keeps all text fragments in document order (sublist
of the emitted parts) and inserts a newline after each paragraph node,
but the effective extractor does not collapse blank lines: on the
document "a" / empty paragraph / "b" it returns `"a\n\nb"`, while the
shadowed first definition — the behaviour the claim describes —
returns `"a\nb"`. -/
theorem C4_fragment_order_and_collapse_divergence :
    (∀ d : ADF, (adfFragments d).Sublist (adfParts d)) ∧
    extract_adf_text demoDocAB = chars "a\n\nb" ∧
    extract_adf_text_shadowed demoDocAB = chars "a\nb" :=
  ⟨adfFragments_sublist, by decide, by decide⟩

/-- A Jira field value as `_extract_text_content` (lines 208-225)
dispatches on it: `None`, a plain string, a dict with a `content` key
(sent to `_extract_adf_text`), or another dict rendered with `str`. -/
inductive FieldContent where
  | null
  | str (s : PyStr)
  | adfDoc (ty : Option PyStr) (txt : Option PyStr) (content : ADFList)
  | otherDict (isEmptyDict : Bool) (reprStr : PyStr)

/-- `_extract_text_content` (lines 208-225): `None`, the empty string
and the empty dict are falsy and yield the sentinel; a dict with a
`content` key goes through the effective `_extract_adf_text`; other
values are string-coerced. -/
def extract_text_content : FieldContent → PyStr
  | FieldContent.null => chars "No content provided"
  | FieldContent.str s => if s.isEmpty then chars "No content provided" else s
  | FieldContent.adfDoc ty txt content =>
    extract_adf_text (ADF.dict ty txt (some content))
  | FieldContent.otherDict isEmptyDict reprStr =>
    if isEmptyDict then chars "No content provided" else reprStr

/-- A rich-document value with a `content` key but no text anywhere. -/
def emptyAdfDoc : FieldContent :=
  FieldContent.adfDoc (some (chars "doc")) none ADFList.nil

/-- C5: extraction never raises and yields the sentinel for `None` and
for the empty string, but a rich-document tree with no text content
yields the empty string, not the sentinel — the effective
`_extract_adf_text` (line 2103) has no sentinel fallback, while the
shadowed first definition (line 227) returns the sentinel exactly as
the claim states. -/
theorem C5_empty_tree_sentinel_divergence :
    extract_text_content emptyAdfDoc = [] ∧
    extract_text_content FieldContent.null = chars "No content provided" ∧
    extract_text_content (FieldContent.str []) = chars "No content provided" ∧
    extract_adf_text_shadowed (ADF.dict (some (chars "doc")) none (some ADFList.nil)) =
      chars "No content provided" :=
  ⟨by decide, by decide, by decide, by decide⟩

/-!
## C6 — `_is_valid_ticket_mention` (lines 1935-1978)
-/

/-- The `false_positive_indicators` list (lines 1944-1948). -/
def falsePositiveIndicators : List PyStr :=
  [chars "address", chars "street", chars "blvd", chars "boulevard", chars "avenue",
   chars "road", chars "drive", chars "phone", chars "telephone", chars "zip",
   chars "postal", chars "credit card", chars "account number", chars "transaction",
   chars "order", chars "invoice", chars "receipt", chars "serial number"]

/-- The `development_context` list (lines 1972-1975). -/
def developmentContextTerms : List PyStr :=
  [chars "pdw", chars "project", chars "development", chars "jira", chars "ticket",
   chars "issue", chars "story", chars "epic", chars "task", chars "feature",
   chars "improvement"]

/-- The `positive_indicators` list (lines 1955-1961). -/
def positiveIndicators (ticketLower : PyStr) : List PyStr :=
  [ticketLower, chars "browse/" ++ ticketLower, ticketLower ++ chars ":",
   chars "jira", chars "atlassian", chars "ticket", chars "issue", chars "story",
   chars "epic", chars "project", chars "development", chars "feature",
   chars "bug", chars "task"]

/-- `_is_valid_ticket_mention(ticket_key, content, title)` (lines
1935-1978).  The false-positive loop returns `False` as soon as some
indicator and the bare ticket number both occur in the lowered
`content + " " + title`; otherwise the result is `has_positive`,
except that a `PDW-` key whose bare number occurs without the full
lowered key falls back to the development-context test. -/
def is_valid_ticket_mention (ticketKey content title : PyStr) : Bool :=
  if content.isEmpty && title.isEmpty then false
  else
    let searchText := pyLower (content ++ chars " " ++ title)
    let ticketLower := pyLower ticketKey
    if falsePositiveIndicators.any (fun ind => pyContains ind searchText) &&
        pyContains (pyReplace ticketKey (chars "PDW-") []) searchText then
      false
    else
      let hasPositive := (positiveIndicators ticketLower).any
        (fun ind => pyContains ind searchText)
      if pyPrefix (chars "PDW-") ticketKey &&
          (pyContains (pyReplace ticketKey (chars "PDW-") []) searchText &&
            !(pyContains ticketLower searchText)) then
        developmentContextTerms.any (fun ctx => pyContains ctx searchText)
      else
        hasPositive

set_option maxRecDepth 8000 in
/-- C6 counterexample: a page whose text contains the literal ticket
key and the word "jira" is nevertheless rejected, because the
false-positive loop fires on any address-like term co-occurring with
the bare ticket number — and the bare number occurs inside the full
key itself.  The claim's acceptance half is therefore false as
stated. -/
theorem C6_false_positive_counterexample :
    pyContains (pyLower (chars "PDW-8744"))
      (pyLower (chars "see PDW-8744 in jira near Main street" ++ chars " " ++ chars "")) = true ∧
    pyContains (chars "jira")
      (pyLower (chars "see PDW-8744 in jira near Main street" ++ chars " " ++ chars "")) = true ∧
    is_valid_ticket_mention (chars "PDW-8744")
      (chars "see PDW-8744 in jira near Main street") (chars "") = false :=
  ⟨by decide, by decide, by decide⟩

/-- C6 (amended): the validity check rejects any page in which an
address-like or transactional term co-occurs with the bare ticket
number (in particular a page whose only match is the bare number in a
street address); and it accepts a page whose combined title+body
contains the literal ticket key together with the word "jira",
provided no false-positive indicator occurs in the page text. -/
theorem C6_mention_validity (ticketKey content title : PyStr) :
    (falsePositiveIndicators.any
        (fun ind => pyContains ind (pyLower (content ++ chars " " ++ title))) = true →
     pyContains (pyReplace ticketKey (chars "PDW-") [])
        (pyLower (content ++ chars " " ++ title)) = true →
     is_valid_ticket_mention ticketKey content title = false) ∧
    (falsePositiveIndicators.any
        (fun ind => pyContains ind (pyLower (content ++ chars " " ++ title))) = false →
     pyContains (pyLower ticketKey) (pyLower (content ++ chars " " ++ title)) = true →
     pyContains (chars "jira") (pyLower (content ++ chars " " ++ title)) = true →
     is_valid_ticket_mention ticketKey content title = true) := by
  constructor
  · intro h1 h2
    simp only [is_valid_ticket_mention]
    split
    · rfl
    · rw [h1, h2]
      rfl
  · intro hfp htl hj
    by_cases hg : (content.isEmpty && title.isEmpty) = true
    · exfalso
      have hc : content = [] := by
        cases content
        · rfl
        · simp at hg
      have ht : title = [] := by
        cases title
        · rfl
        · simp at hg
      subst hc
      subst ht
      exact absurd hj (by decide)
    · simp only [is_valid_ticket_mention, hfp, htl, Bool.false_and, Bool.not_true,
        Bool.and_false, if_neg hg, if_false]
      simp only [positiveIndicators, List.any_cons, htl, Bool.true_or]
      rfl

/-- Witness for `C6_mention_validity`: a bare number inside an invoice
and street context is rejected; a clean "jira ticket PDW-8744" page is
accepted. -/
theorem C6_mention_validity_witness :
    is_valid_ticket_mention (chars "PDW-8744")
      (chars "invoice 8744 Main street") (chars "") = false ∧
    is_valid_ticket_mention (chars "PDW-8744")
      (chars "jira ticket PDW-8744 notes") (chars "") = true :=
  ⟨(C6_mention_validity (chars "PDW-8744") (chars "invoice 8744 Main street")
      (chars "")).1 (by decide) (by decide),
   (C6_mention_validity (chars "PDW-8744") (chars "jira ticket PDW-8744 notes")
      (chars "")).2 (by decide) (by decide) (by decide)⟩

/-!
## C8 — `_convert_markdown_to_adf` (lines 690-785)
-/

/-- An inline text node with an optional strong mark. -/
structure InlineText where
  text : PyStr
  strong : Bool
deriving DecidableEq

/-- One ADF block as the converter produces it: headings carry their
level and text; paragraphs one text node; code blocks (always tagged
`"bash"`) their joined text; bullet lists the text of each `listItem`
(each wrapping a paragraph wrapping a text node); `rule` a horizontal
rule. -/
inductive MdBlock where
  | heading (level : Nat) (text : PyStr)
  | paragraph (node : InlineText)
  | codeBlock (text : PyStr)
  | bulletList (items : List PyStr)
  | rule
deriving DecidableEq

/-- `lines[i].strip().startswith('- ') or ...startswith('* ')`. -/
def isBulletLine (l : PyStr) : Bool :=
  pyPrefix (chars "- ") (pyStrip l) || pyPrefix (chars "* ") (pyStrip l)

/-- The closing-fence test `lines[i].strip().startswith('```')`. -/
def isFenceLine (l : PyStr) : Bool := pyPrefix (chars "```") (pyStrip l)

/-- The `while i < len(lines)` loop of `_convert_markdown_to_adf`
(lines 696-780), structured over the remaining lines.  The fuel starts
at the line count and every step consumes at least one line, so it
never runs out.  The code-block branch collects the raw lines up to
the closing fence and resumes after it; the bullet branch consumes the
maximal run of bullet lines (which starts with the current line). -/
def convertLinesFuel : Nat → List PyStr → List MdBlock
  | _, [] => []
  | 0, _ => []
  | fuel + 1, l :: rest =>
    let line := pyStrip l
    if line.isEmpty then convertLinesFuel fuel rest
    else if pyPrefix (chars "### ") line then
      MdBlock.heading 3 (line.drop 4) :: convertLinesFuel fuel rest
    else if pyPrefix (chars "## ") line then
      MdBlock.heading 2 (line.drop 3) :: convertLinesFuel fuel rest
    else if pyPrefix (chars "# ") line then
      MdBlock.heading 1 (line.drop 2) :: convertLinesFuel fuel rest
    else if pyPrefix (chars "**") line && pySuffix (chars "**") line then
      MdBlock.paragraph { text := (line.drop 2).take (line.length - 4), strong := true } ::
        convertLinesFuel fuel rest
    else if pyPrefix (chars "```") line then
      let codeLines := rest.takeWhile (fun x => !(isFenceLine x))
      let rest2 := (rest.dropWhile (fun x => !(isFenceLine x))).drop 1
      if codeLines.isEmpty then convertLinesFuel fuel rest2
      else
        MdBlock.codeBlock (List.intercalate (chars "\n") codeLines) ::
          convertLinesFuel fuel rest2
    else if isBulletLine l then
      let items := ((l :: rest).takeWhile isBulletLine).map (fun x => (pyStrip x).drop 2)
      MdBlock.bulletList items :: convertLinesFuel fuel ((l :: rest).dropWhile isBulletLine)
    else if pyPrefix (chars "---") line then
      MdBlock.rule :: convertLinesFuel fuel rest
    else
      MdBlock.paragraph { text := line, strong := false } :: convertLinesFuel fuel rest

/-- `_convert_markdown_to_adf(content)` (lines 690-785): split into
lines, run the loop, and fall back to a single paragraph wrapping the
raw content when no block was produced. -/
def convert_markdown_to_adf (content : PyStr) : List MdBlock :=
  let lines := pySplitNl content
  let blocks := convertLinesFuel lines.length lines
  if blocks.isEmpty then [MdBlock.paragraph { text := content, strong := false }]
  else blocks

/-- C8: a fenced bash code block whose body is `echo hi` converts to a
code-block node whose text is exactly `echo hi`; the empty input
converts to a single paragraph node wrapping the empty string; and
every input yields a non-empty block list (the converter is total, so
it never raises). -/
theorem C8_markdown_conversion :
    convert_markdown_to_adf (chars "```bash\necho hi\n```") =
      [MdBlock.codeBlock (chars "echo hi")] ∧
    convert_markdown_to_adf (chars "") =
      [MdBlock.paragraph { text := chars "", strong := false }] ∧
    ∀ content : PyStr, 0 < (convert_markdown_to_adf content).length := by
  refine ⟨by decide, by decide, ?_⟩
  intro content
  simp only [convert_markdown_to_adf]
  split
  · simp
  · rename_i h
    refine List.length_pos.mpr (fun he => h ?_)
    rw [he]
    rfl

/-!
## C9 — generation failure handling (`generate_test_cases`, lines
443-688, and the per-ticket loop of `process_tickets_with_test_cases`,
lines 987-1005)
-/

/-- The context assembled by `generate_test_cases` (lines 453-486):
the base ticket section followed by the optional enrichment sections
(appending an empty section is the no-op of the `if section:`
guards). -/
def buildGenerationContext (key summary description acceptanceCriteria
    prCtx parentCtx confluenceCtx commentsCtx attachmentsCtx : PyStr) : PyStr :=
  chars "TICKET: " ++ key ++ chars "\nSUMMARY: " ++ summary ++
  chars "\n\nDESCRIPTION:\n" ++ description ++
  chars "\n\nACCEPTANCE CRITERIA:\n" ++ acceptanceCriteria ++
  prCtx ++ parentCtx ++ confluenceCtx ++ commentsCtx ++ attachmentsCtx

/-- The return of `generate_test_cases` (lines 664-688): the Anthropic
call either yields text or raises; the function returns
`(test_cases, generation_context)` on success and `(None,
generation_context)` on the exception path.  `apiResult` stands for
the outcome of the service call. -/
def generate_test_cases (apiResult : Option PyStr) (generationContext : PyStr) :
    Option PyStr × PyStr :=
  match apiResult with
  | some txt => (some txt, generationContext)
  | none => (none, generationContext)

/-- A ticket as the loop sees it. -/
structure TicketIn where
  key : PyStr
deriving DecidableEq

/-- The fields the loop body sets on one ticket, plus whether
`update_jira_field` was invoked. -/
structure TicketOutcome where
  key : PyStr
  test_cases_updated : Bool
  test_cases : Option PyStr
  generationContextStored : Option PyStr
  updateCalled : Bool
deriving DecidableEq

/-- One iteration of the loop (lines 987-1005): on truthy generated
text, store the context, call `update_jira_field` and set
`test_cases_updated` from its result; on a falsy result (`None`, or
an empty string) mark the ticket not updated and skip the write-back. -/
def processTicketStep (apiResult : Option PyStr) (updateSucceeds : Bool)
    (generationContext : PyStr) (t : TicketIn) : TicketOutcome :=
  let gen := generate_test_cases apiResult generationContext
  match gen.1 with
  | some txt =>
    if txt.isEmpty then
      { key := t.key, test_cases_updated := false, test_cases := none,
        generationContextStored := none, updateCalled := false }
    else if updateSucceeds then
      { key := t.key, test_cases_updated := true, test_cases := some txt,
        generationContextStored := some gen.2, updateCalled := true }
    else
      { key := t.key, test_cases_updated := false, test_cases := none,
        generationContextStored := some gen.2, updateCalled := true }
  | none =>
    { key := t.key, test_cases_updated := false, test_cases := none,
      generationContextStored := none, updateCalled := false }

/-- The `for ticket in tickets` loop: no break, so every ticket is
processed regardless of earlier failures. -/
def processTicketsLoop (apiResult : PyStr → Option PyStr)
    (updateSucceeds : PyStr → Bool) (genCtx : PyStr → PyStr)
    (tickets : List TicketIn) : List TicketOutcome :=
  tickets.map (fun t =>
    processTicketStep (apiResult t.key) (updateSucceeds t.key) (genCtx t.key) t)

/-- C9: when the generation service fails for ticket `i`,
`generate_test_cases` returns the failure signal `None` together with
the already-built context, the ticket is marked not updated, its
write-back is skipped, and the loop still produces one outcome per
ticket of the batch. -/
theorem C9_generation_failure_recoverable (apiResult : PyStr → Option PyStr)
    (updateSucceeds : PyStr → Bool) (genCtx : PyStr → PyStr)
    (tickets : List TicketIn) (i : Nat) (hi : i < tickets.length)
    (hfail : apiResult (tickets.get ⟨i, hi⟩).key = none) :
    generate_test_cases (apiResult (tickets.get ⟨i, hi⟩).key)
        (genCtx (tickets.get ⟨i, hi⟩).key) =
      (none, genCtx (tickets.get ⟨i, hi⟩).key) ∧
    (processTicketsLoop apiResult updateSucceeds genCtx tickets).length =
      tickets.length ∧
    ∃ hlen : i < (processTicketsLoop apiResult updateSucceeds genCtx tickets).length,
      ((processTicketsLoop apiResult updateSucceeds genCtx tickets).get
          ⟨i, hlen⟩).test_cases_updated = false ∧
      ((processTicketsLoop apiResult updateSucceeds genCtx tickets).get
          ⟨i, hlen⟩).test_cases = none ∧
      ((processTicketsLoop apiResult updateSucceeds genCtx tickets).get
          ⟨i, hlen⟩).updateCalled = false := by
  have hlen : i < (processTicketsLoop apiResult updateSucceeds genCtx tickets).length := by
    simpa [processTicketsLoop] using hi
  have hget : (processTicketsLoop apiResult updateSucceeds genCtx tickets).get ⟨i, hlen⟩ =
      processTicketStep (apiResult (tickets.get ⟨i, hi⟩).key)
        (updateSucceeds (tickets.get ⟨i, hi⟩).key)
        (genCtx (tickets.get ⟨i, hi⟩).key) (tickets.get ⟨i, hi⟩) := by
    simp [processTicketsLoop]
  refine ⟨by rw [hfail]; rfl, by simp [processTicketsLoop], hlen, ?_, ?_, ?_⟩
  all_goals rw [hget, processTicketStep, hfail]
  all_goals rfl

/-- A one-ticket batch for the witness. -/
def demoTicket : TicketIn := { key := chars "PDW-1" }

/-- Witness for `C9_generation_failure_recoverable` on a one-ticket
batch whose generation call fails. -/
theorem C9_generation_failure_recoverable_witness :
    generate_test_cases none (chars "CTX") = (none, chars "CTX") ∧
    (processTicketsLoop (fun _ => none) (fun _ => true) (fun _ => chars "CTX")
        [demoTicket]).length = ([demoTicket] : List TicketIn).length ∧
    ∃ hlen : 0 < (processTicketsLoop (fun _ => none) (fun _ => true)
        (fun _ => chars "CTX") [demoTicket]).length,
      ((processTicketsLoop (fun _ => none) (fun _ => true) (fun _ => chars "CTX")
          [demoTicket]).get ⟨0, hlen⟩).test_cases_updated = false ∧
      ((processTicketsLoop (fun _ => none) (fun _ => true) (fun _ => chars "CTX")
          [demoTicket]).get ⟨0, hlen⟩).test_cases = none ∧
      ((processTicketsLoop (fun _ => none) (fun _ => true) (fun _ => chars "CTX")
          [demoTicket]).get ⟨0, hlen⟩).updateCalled = false :=
  C9_generation_failure_recoverable (fun _ => none) (fun _ => true)
    (fun _ => chars "CTX") [demoTicket] 0 (by decide) rfl

/-!
## C10 — `search_tickets` payload (lines 35-59) and the per-issue loop
of `fetch_tickets_with_criteria` (lines 281-326)
-/

/-- The JSON payload posted by `search_tickets`. -/
structure SearchPayload where
  jql : PyStr
  fields : List PyStr
  maxResults : Nat
deriving DecidableEq

/-- The default field list (line 38). -/
def defaultSearchFields : List PyStr :=
  [chars "summary", chars "description", chars "key", chars "status",
   chars "assignee"]

/-- The payload built at lines 47-51: `maxResults` is the literal
100. -/
def search_tickets_payload (jql : PyStr) (fields : Option (List PyStr)) :
    SearchPayload :=
  { jql := jql, fields := fields.getD defaultSearchFields, maxResults := 100 }

/-- One issue of the search response, restricted to identifying
fields. -/
structure IssueLite where
  key : PyStr
  summary : PyStr
deriving DecidableEq

/-- A ticket dict as built by the loop, restricted likewise. -/
structure TicketLite where
  key : PyStr
  summary : PyStr
deriving DecidableEq

/-- The body of `for issue in results.get('issues', [])` (lines
288-325): one ticket per returned issue. -/
def buildTicketFromIssue (issue : IssueLite) : TicketLite :=
  { key := issue.key, summary := issue.summary }

/-- The whole loop of `fetch_tickets_with_criteria`. -/
def fetchTicketsFromResponse (issues : List IssueLite) : List TicketLite :=
  issues.map buildTicketFromIssue

/-- C10: the search payload always carries `maxResults = 100`, and the
run builds exactly one ticket per returned issue, so a response
honouring `maxResults` yields at most 100 processed tickets. -/
theorem C10_max_results_bound (jql : PyStr) (fields : Option (List PyStr))
    (issues : List IssueLite)
    (hresp : issues.length ≤ (search_tickets_payload jql fields).maxResults) :
    (search_tickets_payload jql fields).maxResults = 100 ∧
    (fetchTicketsFromResponse issues).length ≤ 100 := by
  refine ⟨rfl, ?_⟩
  simpa [fetchTicketsFromResponse, search_tickets_payload] using hresp

/-- Witness for `C10_max_results_bound` on a one-issue response. -/
theorem C10_max_results_bound_witness :
    (search_tickets_payload (chars "project = CA") none).maxResults = 100 ∧
    (fetchTicketsFromResponse [{ key := chars "PDW-1", summary := chars "s" }]).length ≤ 100 :=
  C10_max_results_bound (chars "project = CA") none
    [{ key := chars "PDW-1", summary := chars "s" }] (by decide)

end JiraQA
